import Mathlib

/-!
Verification of the LLM proxy endpoint of `flask-tutorial-app/app.py`
(route `POST /api/llm`, function `api_llm`, lines 27-123).

The handler is pure glue code around one outbound HTTP call, so we embed it
shallowly: JSON values become an inductive type, Python truthiness becomes a
Boolean function, the environment becomes a record of three optional strings,
and the single outbound call is a parameter describing its outcome (the mocked
transport of the spec).  An uncaught Python exception inside the handler is
modelled as `Except.error`; every `return jsonify(...), code` of the source is
`Except.ok` carrying the response and, when the handler reached the outbound
call, the request it issued.

Python numbers (int and float literals such as `0.7` and `256`) are modelled
as rationals; the handler never computes with them, it only passes them along.
-/

namespace FlaskApp

/-- JSON values as produced by `json.loads` / Flask `request.get_json`:
objects are association lists with (per `json.loads`) distinct string keys. -/
inductive Json where
  | null : Json
  | bool : Bool → Json
  | num  : Rat → Json
  | str  : String → Json
  | arr  : List Json → Json
  | obj  : List (String × Json) → Json

/-- `d.get(key)` on a Python dict: the value stored under `key`, if any. -/
def jlookup : List (String × Json) → String → Option Json
  | [], _ => none
  | (k, v) :: rest, key => if k = key then some v else jlookup rest key

/-- Python truthiness of a JSON value: `None`, `False`, `0`, `""`, `[]` and
`{}` are falsy, everything else is truthy. -/
def truthy : Json → Bool
  | .null => false
  | .bool b => b
  | .num q => decide (q ≠ 0)
  | .str s => decide (s ≠ "")
  | .arr xs => !xs.isEmpty
  | .obj kvs => !kvs.isEmpty

/-- The ASCII whitespace characters stripped by Python `str.strip()`. -/
def pyWS (c : Char) : Bool :=
  c = ' ' || c = '\t' || c = '\n' || c = '\r' || c = '\x0b' || c = '\x0c'

/-- Python `s.strip()`: drop leading and trailing whitespace. -/
def pyStrip (s : String) : String :=
  String.mk (((s.toList.dropWhile pyWS).reverse.dropWhile pyWS).reverse)

/-- Python `s.rstrip('/')` as used on `base_url`: drop all trailing slashes. -/
def rstripSlash (s : String) : String :=
  String.mk ((s.toList.reverse.dropWhile (fun c => c = '/')).reverse)

/-- The three environment variables the handler reads, each possibly unset. -/
structure Env where
  OPENAI_API_KEY : Option String
  OPENAI_BASE_URL : Option String
  OPENAI_MODEL : Option String

/-- `os.environ.get('OPENAI_MODEL', 'gpt-4o-mini')` (app.py line 51). -/
def resolvedEnvModel (env : Env) : String :=
  match env.OPENAI_MODEL with
  | some s => s
  | none => "gpt-4o-mini"

/-- `system_prompt` as resolved at app.py line 50: the body value when
truthy, else the fixed default. -/
def resolvedSystem (kvs : List (String × Json)) : Json :=
  match jlookup kvs "system" with
  | some v => if truthy v then v else .str "You are a helpful assistant."
  | none => .str "You are a helpful assistant."

/-- `model_name` as resolved at app.py line 51: the body value when truthy,
else `OPENAI_MODEL`, else `"gpt-4o-mini"`. -/
def resolvedModel (kvs : List (String × Json)) (env : Env) : Json :=
  match jlookup kvs "model" with
  | some v => if truthy v then v else .str (resolvedEnvModel env)
  | none => .str (resolvedEnvModel env)

/-- `os.environ.get('OPENAI_BASE_URL', 'https://api.openai.com/v1')`
(app.py line 59). -/
def resolvedBaseUrl (env : Env) : String :=
  match env.OPENAI_BASE_URL with
  | some s => s
  | none => "https://api.openai.com/v1"

/-- Outcome of the single `urllib.request.urlopen` call (app.py lines 83-103):
  * `ok`: a 2xx reply whose body parsed as JSON;
  * `httpError`: `urllib.error.HTTPError` with the provider status `code`;
    `readBody` is `e.read().decode('utf-8')` when that succeeds, and `strE`
    is `str(e)`, used when reading the error body itself raises;
  * `urlError`: `urllib.error.URLError` (DNS failure, connection refused,
    timeout), with `strE = str(e)`;
  * `otherError`: any other exception in the call/read/parse block (for
    example a 2xx body that is not valid JSON), with `strE = str(e)`. -/
inductive Outcome where
  | ok (respJson : Json)
  | httpError (code : Nat) (readBody : Option String) (strE : String)
  | urlError (strE : String)
  | otherError (strE : String)

/-- The outbound POST request built at app.py lines 62-81. -/
structure OutboundRequest where
  url : String
  headers : List (String × String)
  payload : Json

/-- An HTTP response returned by the handler: status code and JSON body. -/
structure HttpResponse where
  status : Nat
  body : Json

/-- Extraction of `choices[0].message.content` (app.py lines 105-112).
The source wraps the reads in `try/except Exception: text = None`, so every
shape mismatch — `resp_json` not a dict, `choices` missing or falsy, a truthy
non-list `choices`, a non-dict first element or `message`, a missing key —
uniformly yields `None`, here `none`.  The only path that yields a value is a
dict with a nonempty `choices` list whose first element is a dict carrying a
dict under `message` with a `content` key. -/
def extractText (respJson : Json) : Option Json :=
  match respJson with
  | .obj kvs =>
    match jlookup kvs "choices" with
    | some (.arr (c0 :: _)) =>
      match c0 with
      | .obj c0m =>
        match jlookup c0m "message" with
        | some (.obj mm) => jlookup mm "content"
        | _ => none
      | _ => none
    | _ => none
  | _ => none

/-- The handler `api_llm` (app.py lines 27-123).

`rawBody` is the result of `request.get_json(silent=True)`: `none` when the
body is absent or unparseable.  `call` is the outcome of the one outbound
call; it is only consulted when the handler reaches `urlopen`.  The result is
`Except.error` when the handler raises an uncaught exception (an
`AttributeError` from calling `.get` on a non-dict body or `.strip()` on a
truthy non-string prompt), otherwise `Except.ok (r, resp)` where `resp` is
the HTTP response and `r` is the outbound request issued (`none` when the
handler returned before building and sending one). -/
def api_llm (rawBody : Option Json) (env : Env) (call : Outcome) :
    Except String (Option OutboundRequest × HttpResponse) :=
  -- body = request.get_json(silent=True) or {}
  let body : Json :=
    match rawBody with
    | none => .obj []
    | some j => if truthy j then j else .obj []
  match body with
  | .obj kvs =>
    -- user_prompt = (body.get('prompt') or '').strip()
    let promptVal : Json :=
      match jlookup kvs "prompt" with
      | some v => if truthy v then v else .str ""
      | none => .str ""
    match promptVal with
    | .str rawPrompt =>
      let user_prompt := pyStrip rawPrompt
      if user_prompt = "" then
        .ok (none, ⟨400, .obj [("error", .str "Missing 'prompt' in request body.")]⟩)
      else
        -- system_prompt = body.get('system') or 'You are a helpful assistant.'
        let system_prompt : Json := resolvedSystem kvs
        -- model_name = body.get('model') or os.environ.get('OPENAI_MODEL', 'gpt-4o-mini')
        let model_name : Json := resolvedModel kvs env
        -- temperature = body.get('temperature', 0.7)
        let temperature : Json := (jlookup kvs "temperature").getD (.num (7 / 10))
        -- max_tokens = body.get('max_tokens', 256)
        let max_tokens : Json := (jlookup kvs "max_tokens").getD (.num 256)
        -- api_key = os.environ.get('OPENAI_API_KEY'); if not api_key: 400
        match env.OPENAI_API_KEY with
        | none =>
          .ok (none, ⟨400, .obj [("error", .str "OPENAI_API_KEY is not set in the environment.")]⟩)
        | some key =>
          if key = "" then
            .ok (none, ⟨400, .obj [("error", .str "OPENAI_API_KEY is not set in the environment.")]⟩)
          else
            -- base_url = os.environ.get('OPENAI_BASE_URL', 'https://api.openai.com/v1')
            let base_url : String := resolvedBaseUrl env
            -- endpoint = f"{base_url.rstrip('/')}/chat/completions"
            let endpoint := rstripSlash base_url ++ "/chat/completions"
            let payload : Json := .obj [
              ("model", model_name),
              ("messages", .arr [
                .obj [("role", .str "system"), ("content", system_prompt)],
                .obj [("role", .str "user"), ("content", .str user_prompt)]]),
              ("temperature", temperature),
              ("max_tokens", max_tokens)]
            let req : OutboundRequest :=
              ⟨endpoint,
               [("Authorization", "Bearer " ++ key),
                ("Content-Type", "application/json")],
               payload⟩
            match call with
            | .httpError code readBody strE =>
              -- err_body = e.read().decode('utf-8'), or str(e) if that raises
              let err_body : String :=
                match readBody with
                | some b => b
                | none => strE
              .ok (some req, ⟨502, .obj [
                ("error", .str "LLM provider returned an error"),
                ("status", .num code),
                ("details", .str err_body)]⟩)
            | .urlError strE =>
              .ok (some req, ⟨502, .obj [
                ("error", .str "Failed to reach LLM provider"),
                ("details", .str strE)]⟩)
            | .otherError strE =>
              .ok (some req, ⟨500, .obj [
                ("error", .str "Unexpected error"),
                ("details", .str strE)]⟩)
            | .ok resp_json =>
              match extractText resp_json with
              | some t =>
                -- if not text: extraction failure also on falsy content
                if truthy t then
                  .ok (some req, ⟨200, .obj [("text", t), ("model", model_name)]⟩)
                else
                  .ok (some req, ⟨502, .obj [
                    ("error", .str "Could not extract text from provider response"),
                    ("raw", resp_json)]⟩)
              | none =>
                .ok (some req, ⟨502, .obj [
                  ("error", .str "Could not extract text from provider response"),
                  ("raw", resp_json)]⟩)
    | _ => .error "AttributeError: object has no attribute strip"
  | _ => .error "AttributeError: object has no attribute get"

/-! ### Helper lemmas -/

theorem pyStrip_empty : pyStrip "" = "" := rfl

theorem pyStrip_eq_empty_of_all_ws (s : String) (h : s.toList.all pyWS = true) :
    pyStrip s = "" := by
  unfold pyStrip
  have h1 : s.toList.dropWhile pyWS = [] := by
    rw [List.dropWhile_eq_nil_iff]
    intro x hx
    exact List.all_eq_true.mp h x hx
  rw [h1]
  rfl

/-- `body or {}` leaves a dict unchanged: a falsy dict is already empty. -/
theorem body_or_empty (kvs : List (String × Json)) :
    (if truthy (Json.obj kvs) then Json.obj kvs else Json.obj []) = Json.obj kvs := by
  cases kvs with
  | nil => simp
  | cons a l => rfl

/-- A string that is nonempty after stripping is truthy. -/
theorem truthy_str_of_strip_ne (s : String) (h : pyStrip s ≠ "") :
    truthy (Json.str s) = true := by
  rcases eq_or_ne s "" with rfl | hs
  · exact absurd pyStrip_empty h
  · simp [truthy, hs]

/-- The outbound request the handler builds once validation has passed
(app.py lines 50-81), as a function of the body fields `kvs`, the
environment, the API key and the raw prompt string `p`: URL from
`OPENAI_BASE_URL` with trailing slashes stripped and `/chat/completions`
appended, a bearer header, and the payload with the field defaults of
lines 50-53. -/
def builtRequest (kvs : List (String × Json)) (env : Env) (key p : String) :
    OutboundRequest :=
  ⟨rstripSlash (resolvedBaseUrl env) ++ "/chat/completions",
   [("Authorization", "Bearer " ++ key), ("Content-Type", "application/json")],
   .obj [
     ("model", resolvedModel kvs env),
     ("messages", .arr [
       .obj [("role", .str "system"), ("content", resolvedSystem kvs)],
       .obj [("role", .str "user"), ("content", .str (pyStrip p))]]),
     ("temperature", (jlookup kvs "temperature").getD (.num (7 / 10))),
     ("max_tokens", (jlookup kvs "max_tokens").getD (.num 256))]⟩

/-! ### Evaluation lemmas: one per control path of the handler -/

theorem eval_body_none (env : Env) (call : Outcome) :
    api_llm none env call =
      .ok (none, ⟨400, .obj [("error", .str "Missing 'prompt' in request body.")]⟩) := rfl

theorem eval_body_falsy (env : Env) (call : Outcome) (j : Json)
    (ht : truthy j = false) :
    api_llm (some j) env call =
      .ok (none, ⟨400, .obj [("error", .str "Missing 'prompt' in request body.")]⟩) := by
  simp [api_llm, ht, jlookup, pyStrip_empty]

theorem eval_nonobj_truthy (env : Env) (call : Outcome) (j : Json)
    (ht : truthy j = true) (hno : ∀ kvs, j ≠ Json.obj kvs) :
    api_llm (some j) env call = .error "AttributeError: object has no attribute get" := by
  cases j with
  | obj kvs => exact absurd rfl (hno kvs)
  | null => simp [truthy] at ht
  | bool b => simp only [api_llm, ht, if_true]
  | num q => simp only [api_llm, ht, if_true]
  | str s => simp only [api_llm, ht, if_true]
  | arr xs => simp only [api_llm, ht, if_true]

theorem eval_prompt_absent (env : Env) (call : Outcome) (kvs : List (String × Json))
    (hp : jlookup kvs "prompt" = none) :
    api_llm (some (.obj kvs)) env call =
      .ok (none, ⟨400, .obj [("error", .str "Missing 'prompt' in request body.")]⟩) := by
  simp only [api_llm, body_or_empty, hp, pyStrip_empty, if_pos]

theorem eval_prompt_falsy (env : Env) (call : Outcome) (kvs : List (String × Json))
    (pv : Json) (hp : jlookup kvs "prompt" = some pv) (ht : truthy pv = false) :
    api_llm (some (.obj kvs)) env call =
      .ok (none, ⟨400, .obj [("error", .str "Missing 'prompt' in request body.")]⟩) := by
  simp [api_llm, body_or_empty, hp, ht, pyStrip_empty]

theorem eval_prompt_blank (env : Env) (call : Outcome) (kvs : List (String × Json))
    (s : String) (hp : jlookup kvs "prompt" = some (.str s)) (hs : pyStrip s = "") :
    api_llm (some (.obj kvs)) env call =
      .ok (none, ⟨400, .obj [("error", .str "Missing 'prompt' in request body.")]⟩) := by
  by_cases ht : truthy (Json.str s) = true
  · simp [api_llm, body_or_empty, hp, ht, hs]
  · simp [api_llm, body_or_empty, hp, ht, pyStrip_empty]

theorem eval_prompt_nonstring (env : Env) (call : Outcome) (kvs : List (String × Json))
    (pv : Json) (hp : jlookup kvs "prompt" = some pv) (ht : truthy pv = true)
    (hns : ∀ s, pv ≠ Json.str s) :
    api_llm (some (.obj kvs)) env call =
      .error "AttributeError: object has no attribute strip" := by
  cases pv with
  | str s => exact absurd rfl (hns s)
  | null => simp [truthy] at ht
  | bool b => simp [api_llm, body_or_empty, hp, ht]
  | num q => simp [api_llm, body_or_empty, hp, ht]
  | arr xs => simp [api_llm, body_or_empty, hp, ht]
  | obj o => simp [api_llm, body_or_empty, hp, ht]

theorem eval_key_missing (env : Env) (call : Outcome) (kvs : List (String × Json))
    (p : String) (hp : jlookup kvs "prompt" = some (.str p)) (hps : pyStrip p ≠ "")
    (hk : env.OPENAI_API_KEY = none ∨ env.OPENAI_API_KEY = some "") :
    api_llm (some (.obj kvs)) env call =
      .ok (none, ⟨400, .obj [("error", .str "OPENAI_API_KEY is not set in the environment.")]⟩) := by
  have ht := truthy_str_of_strip_ne p hps
  rcases hk with hk | hk <;>
    simp [api_llm, body_or_empty, hp, ht, if_neg hps, hk]

/-- Full behavior of the handler once validation has passed: the outbound
request is `builtRequest` and the response is determined by the call
outcome exactly as at app.py lines 83-123. -/
theorem eval_call_reached (env : Env) (kvs : List (String × Json))
    (p key : String) (call : Outcome)
    (hp : jlookup kvs "prompt" = some (.str p)) (hps : pyStrip p ≠ "")
    (hk : env.OPENAI_API_KEY = some key) (hk0 : key ≠ "") :
    api_llm (some (.obj kvs)) env call =
      .ok (some (builtRequest kvs env key p),
        match call with
        | .ok rj =>
          match extractText rj with
          | some t =>
            if truthy t then
              ⟨200, .obj [("text", t), ("model", resolvedModel kvs env)]⟩
            else
              ⟨502, .obj [("error", .str "Could not extract text from provider response"),
                          ("raw", rj)]⟩
          | none =>
            ⟨502, .obj [("error", .str "Could not extract text from provider response"),
                        ("raw", rj)]⟩
        | .httpError code readBody strE =>
          ⟨502, .obj [("error", .str "LLM provider returned an error"),
                      ("status", .num code),
                      ("details", .str (readBody.getD strE))]⟩
        | .urlError strE =>
          ⟨502, .obj [("error", .str "Failed to reach LLM provider"),
                      ("details", .str strE)]⟩
        | .otherError strE =>
          ⟨500, .obj [("error", .str "Unexpected error"),
                      ("details", .str strE)]⟩) := by
  have ht := truthy_str_of_strip_ne p hps
  cases call with
  | httpError code readBody strE =>
    simp only [api_llm, builtRequest, resolvedModel, resolvedSystem, Option.getD, body_or_empty, hp, ht, if_true,
      if_neg hps, hk, if_neg hk0]
    cases readBody <;> rfl
  | urlError strE =>
    simp only [api_llm, builtRequest, resolvedModel, resolvedSystem, Option.getD, body_or_empty, hp, ht, if_true,
      if_neg hps, hk, if_neg hk0]
  | otherError strE =>
    simp only [api_llm, builtRequest, resolvedModel, resolvedSystem, Option.getD, body_or_empty, hp, ht, if_true,
      if_neg hps, hk, if_neg hk0]
  | ok rj =>
    cases hext : extractText rj with
    | none =>
      simp only [api_llm, builtRequest, resolvedModel, resolvedSystem, Option.getD, body_or_empty, hp, ht, if_true,
        if_neg hps, hk, if_neg hk0, hext]
    | some t =>
      cases htt : truthy t with
      | true =>
        simp only [api_llm, builtRequest, resolvedModel, resolvedSystem, Option.getD, body_or_empty, hp, ht, if_true,
          if_neg hps, hk, if_neg hk0, hext, htt]
      | false =>
        simp [api_llm, builtRequest, resolvedModel, resolvedSystem, Option.getD, body_or_empty, hp, ht,
          if_neg hps, hk, if_neg hk0, hext, htt]

theorem ok_pair_inj {x : Option OutboundRequest × HttpResponse}
    {r : Option OutboundRequest} {resp : HttpResponse}
    (h : (Except.ok x : Except String (Option OutboundRequest × HttpResponse)) = .ok (r, resp)) :
    r = x.1 ∧ resp = x.2 := by
  injection h with h1
  subst h1
  exact ⟨rfl, rfl⟩

/-- Every terminating run of the handler is either a 400 with no outbound
request, or a 200/500/502 after the outbound request was issued. -/
theorem api_llm_shape (rawBody : Option Json) (env : Env) (call : Outcome)
    (r : Option OutboundRequest) (resp : HttpResponse)
    (h : api_llm rawBody env call = .ok (r, resp)) :
    (r = none ∧ resp.status = 400) ∨
    ((∃ q, r = some q) ∧ (resp.status = 200 ∨ resp.status = 500 ∨ resp.status = 502)) := by
  rcases rawBody with _ | j
  · rw [eval_body_none] at h
    obtain ⟨hr, hresp⟩ := ok_pair_inj h
    exact Or.inl ⟨hr, by rw [hresp]⟩
  · cases j with
    | obj kvs =>
      cases hp : jlookup kvs "prompt" with
      | none =>
        rw [eval_prompt_absent env call kvs hp] at h
        obtain ⟨hr, hresp⟩ := ok_pair_inj h
        exact Or.inl ⟨hr, by rw [hresp]⟩
      | some pv =>
        cases htp : truthy pv with
        | false =>
          rw [eval_prompt_falsy env call kvs pv hp htp] at h
          obtain ⟨hr, hresp⟩ := ok_pair_inj h
          exact Or.inl ⟨hr, by rw [hresp]⟩
        | true =>
          cases pv with
          | str s =>
            by_cases hps : pyStrip s = ""
            · rw [eval_prompt_blank env call kvs s hp hps] at h
              obtain ⟨hr, hresp⟩ := ok_pair_inj h
              exact Or.inl ⟨hr, by rw [hresp]⟩
            · cases hk : env.OPENAI_API_KEY with
              | none =>
                rw [eval_key_missing env call kvs s hp hps (Or.inl hk)] at h
                obtain ⟨hr, hresp⟩ := ok_pair_inj h
                exact Or.inl ⟨hr, by rw [hresp]⟩
              | some key =>
                by_cases hk0 : key = ""
                · subst hk0
                  rw [eval_key_missing env call kvs s hp hps (Or.inr hk)] at h
                  obtain ⟨hr, hresp⟩ := ok_pair_inj h
                  exact Or.inl ⟨hr, by rw [hresp]⟩
                · rw [eval_call_reached env kvs s key call hp hps hk hk0] at h
                  obtain ⟨hr, hresp⟩ := ok_pair_inj h
                  refine Or.inr ⟨⟨builtRequest kvs env key s, hr⟩, ?_⟩
                  rw [hresp]
                  cases call with
                  | httpError c rb sE => simp
                  | urlError sE => simp
                  | otherError sE => simp
                  | ok rj =>
                    cases hext : extractText rj with
                    | none => simp [hext]
                    | some t =>
                      cases htt : truthy t with
                      | true => simp [hext, htt]
                      | false => simp [hext, htt]
          | null => simp [truthy] at htp
          | bool b =>
            rw [eval_prompt_nonstring env call kvs _ hp htp
              (fun s hh => Json.noConfusion hh)] at h
            simp at h
          | num q =>
            rw [eval_prompt_nonstring env call kvs _ hp htp
              (fun s hh => Json.noConfusion hh)] at h
            simp at h
          | arr xs =>
            rw [eval_prompt_nonstring env call kvs _ hp htp
              (fun s hh => Json.noConfusion hh)] at h
            simp at h
          | obj o =>
            rw [eval_prompt_nonstring env call kvs _ hp htp
              (fun s hh => Json.noConfusion hh)] at h
            simp at h
    | null =>
      rw [eval_body_falsy env call Json.null rfl] at h
      obtain ⟨hr, hresp⟩ := ok_pair_inj h
      exact Or.inl ⟨hr, by rw [hresp]⟩
    | bool b =>
      cases b with
      | false =>
        rw [eval_body_falsy env call (Json.bool false) rfl] at h
        obtain ⟨hr, hresp⟩ := ok_pair_inj h
        exact Or.inl ⟨hr, by rw [hresp]⟩
      | true =>
        rw [eval_nonobj_truthy env call (Json.bool true) rfl
          (fun kvs hh => Json.noConfusion hh)] at h
        simp at h
    | num q =>
      cases htq : truthy (Json.num q) with
      | false =>
        rw [eval_body_falsy env call _ htq] at h
        obtain ⟨hr, hresp⟩ := ok_pair_inj h
        exact Or.inl ⟨hr, by rw [hresp]⟩
      | true =>
        rw [eval_nonobj_truthy env call _ htq (fun kvs hh => Json.noConfusion hh)] at h
        simp at h
    | str s =>
      cases hts : truthy (Json.str s) with
      | false =>
        rw [eval_body_falsy env call _ hts] at h
        obtain ⟨hr, hresp⟩ := ok_pair_inj h
        exact Or.inl ⟨hr, by rw [hresp]⟩
      | true =>
        rw [eval_nonobj_truthy env call _ hts (fun kvs hh => Json.noConfusion hh)] at h
        simp at h
    | arr xs =>
      cases hta : truthy (Json.arr xs) with
      | false =>
        rw [eval_body_falsy env call _ hta] at h
        obtain ⟨hr, hresp⟩ := ok_pair_inj h
        exact Or.inl ⟨hr, by rw [hresp]⟩
      | true =>
        rw [eval_nonobj_truthy env call _ hta (fun kvs hh => Json.noConfusion hh)] at h
        simp at h

/-! ### Claim theorems -/

/-- C2: for every request body in which `prompt` is absent, the empty string,
or a whitespace-only string — including a request with no JSON body or an
unparseable body, which `get_json(silent=True) or {}` turns into an empty
object — the handler responds 400 with exactly
`{"error": "Missing 'prompt' in request body."}`, and no outbound request is
built, whatever the environment and whatever the transport would have done. -/
theorem missing_prompt_400 (rawBody : Option Json) (env : Env) (call : Outcome)
    (h : rawBody = none ∨
      ∃ kvs, rawBody = some (.obj kvs) ∧
        (jlookup kvs "prompt" = none ∨
         ∃ s, jlookup kvs "prompt" = some (.str s) ∧ s.toList.all pyWS = true)) :
    api_llm rawBody env call =
      .ok (none, ⟨400, .obj [("error", .str "Missing 'prompt' in request body.")]⟩) := by
  rcases h with rfl | ⟨kvs, rfl, habsent | ⟨s, hs, hws⟩⟩
  · rfl
  · simp only [api_llm, body_or_empty, habsent, pyStrip_empty, if_pos]
  · simp only [api_llm, body_or_empty, hs]
    have hstrip : pyStrip s = "" := pyStrip_eq_empty_of_all_ws s hws
    by_cases ht : truthy (Json.str s) = true
    · simp [ht, hstrip]
    · simp [ht, pyStrip_empty]

/-- C2 witness: a whitespace-only prompt at a concrete input. -/
theorem missing_prompt_400_witness :
    api_llm (some (.obj [("prompt", .str " \t ")])) ⟨some "sk", none, none⟩ (.urlError "boom") =
      .ok (none, ⟨400, .obj [("error", .str "Missing 'prompt' in request body.")]⟩) :=
  missing_prompt_400 _ _ _ (Or.inr ⟨_, rfl, Or.inr ⟨" \t ", rfl, rfl⟩⟩)

/-- C5: when the provider replies with a non-2xx status `code` and body
`readBody` (read as text when possible, else `str(e)`), the handler responds
502 with exactly the error, the provider status, and those details. -/
theorem provider_http_error_502 (kvs : List (String × Json)) (env : Env)
    (p key : String) (code : Nat) (readBody : Option String) (strE : String)
    (hp : jlookup kvs "prompt" = some (.str p)) (hps : pyStrip p ≠ "")
    (hk : env.OPENAI_API_KEY = some key) (hk0 : key ≠ "") :
    ∃ r, api_llm (some (.obj kvs)) env (.httpError code readBody strE) =
      .ok (some r, ⟨502, .obj [
        ("error", .str "LLM provider returned an error"),
        ("status", .num code),
        ("details", .str (readBody.getD strE))]⟩) := by
  refine ⟨builtRequest kvs env key p, ?_⟩
  simp only [api_llm, builtRequest, resolvedModel, resolvedSystem, Option.getD, body_or_empty,
    hp, truthy_str_of_strip_ne p hps, if_true, if_neg hps, hk, if_neg hk0]
  cases readBody <;> rfl

/-- C5 witness: HTTP 429 with body "rate limited" at a concrete input. -/
theorem provider_http_error_502_witness :
    ∃ r, api_llm (some (.obj [("prompt", .str "hi")])) ⟨some "sk", none, none⟩
        (.httpError 429 (some "rate limited") "str e") =
      .ok (some r, ⟨502, .obj [
        ("error", .str "LLM provider returned an error"),
        ("status", .num 429),
        ("details", .str ((some "rate limited").getD "str e"))]⟩) :=
  provider_http_error_502 _ _ "hi" "sk" 429 _ _ rfl (by decide) rfl (by decide)

/-- C6: a transport failure before any HTTP response (`urllib.error.URLError`:
DNS failure, connection refused, timeout) yields 502 with
`"Failed to reach LLM provider"` and the failure description, while an
unclassified failure (any other exception) — and only that class — yields 500
with `"Unexpected error"` and the description. -/
theorem transport_failure_mapping (kvs : List (String × Json)) (env : Env)
    (p key du dOther : String)
    (hp : jlookup kvs "prompt" = some (.str p)) (hps : pyStrip p ≠ "")
    (hk : env.OPENAI_API_KEY = some key) (hk0 : key ≠ "") :
    api_llm (some (.obj kvs)) env (.urlError du) =
      .ok (some (builtRequest kvs env key p), ⟨502, .obj [
        ("error", .str "Failed to reach LLM provider"),
        ("details", .str du)]⟩) ∧
    api_llm (some (.obj kvs)) env (.otherError dOther) =
      .ok (some (builtRequest kvs env key p), ⟨500, .obj [
        ("error", .str "Unexpected error"),
        ("details", .str dOther)]⟩) := by
  constructor <;>
    simp only [api_llm, builtRequest, resolvedModel, resolvedSystem, Option.getD, body_or_empty,
      hp, truthy_str_of_strip_ne p hps, if_true, if_neg hps, hk, if_neg hk0]

/-- C6 witness: a DNS failure and an unclassified failure at a concrete
input. -/
theorem transport_failure_mapping_witness :
    api_llm (some (.obj [("prompt", .str "hi")])) ⟨some "sk", none, none⟩
        (.urlError "name or service not known") =
      .ok (some (builtRequest [("prompt", .str "hi")] ⟨some "sk", none, none⟩ "sk" "hi"),
        ⟨502, .obj [
          ("error", .str "Failed to reach LLM provider"),
          ("details", .str "name or service not known")]⟩) ∧
    api_llm (some (.obj [("prompt", .str "hi")])) ⟨some "sk", none, none⟩
        (.otherError "boom") =
      .ok (some (builtRequest [("prompt", .str "hi")] ⟨some "sk", none, none⟩ "sk" "hi"),
        ⟨500, .obj [
          ("error", .str "Unexpected error"),
          ("details", .str "boom")]⟩) :=
  transport_failure_mapping _ _ "hi" "sk" _ _ rfl (by decide) rfl (by decide)

/-- C1: when the provider replies 200 with a JSON object whose `choices`
list has a first element carrying `message.content` equal to a non-empty
string `c`, the handler responds 200 with body exactly
`{"text": c, "model": m}` where `m` is the resolved model: the request
body value of `model` when given (and truthy), else the `OPENAI_MODEL`
environment variable, else `"gpt-4o-mini"`. -/
theorem success_200 (kvs rkvs c0m mm : List (String × Json)) (env : Env)
    (p key c : String) (m : Json) (rest : List Json)
    (hp : jlookup kvs "prompt" = some (.str p)) (hps : pyStrip p ≠ "")
    (hk : env.OPENAI_API_KEY = some key) (hk0 : key ≠ "")
    (hch : jlookup rkvs "choices" = some (.arr (.obj c0m :: rest)))
    (hmsg : jlookup c0m "message" = some (.obj mm))
    (hct : jlookup mm "content" = some (.str c)) (hc : c ≠ "")
    (hm : (∃ mv, jlookup kvs "model" = some mv ∧ truthy mv = true ∧ m = mv) ∨
          ((jlookup kvs "model" = none ∨
            ∃ mv, jlookup kvs "model" = some mv ∧ truthy mv = false) ∧
           m = .str (resolvedEnvModel env))) :
    api_llm (some (.obj kvs)) env (.ok (.obj rkvs)) =
      .ok (some (builtRequest kvs env key p),
        ⟨200, .obj [("text", .str c), ("model", m)]⟩) := by
  have htc : truthy (Json.str c) = true := by simp [truthy, hc]
  rcases hm with ⟨mv, hmv, hmt, rfl⟩ | ⟨hmn | ⟨mv, hmv, hmf⟩, rfl⟩
  · simp only [api_llm, builtRequest, resolvedModel, resolvedSystem, Option.getD, body_or_empty, hp, truthy_str_of_strip_ne p hps, if_true,
      if_neg hps, hk, if_neg hk0, extractText, hch, hmsg, hct, htc, hmv, hmt]
  · simp only [api_llm, builtRequest, resolvedModel, resolvedSystem, Option.getD, body_or_empty, hp, truthy_str_of_strip_ne p hps, if_true,
      if_neg hps, hk, if_neg hk0, extractText, hch, hmsg, hct, htc, hmn]
  · simp [api_llm, builtRequest, resolvedModel, resolvedSystem, Option.getD, body_or_empty, hp, truthy_str_of_strip_ne p hps,
      if_neg hps, hk, if_neg hk0, extractText, hch, hmsg, hct, htc, hmv, hmf]

/-- C1 witness: provider returns `choices[0].message.content = "hello"`, no
model in the request, `OPENAI_MODEL` unset — the response is
`{"text": "hello", "model": "gpt-4o-mini"}` with status 200. -/
theorem success_200_witness :
    api_llm (some (.obj [("prompt", .str "hi")])) ⟨some "sk", none, none⟩
        (.ok (.obj [("choices", .arr [.obj [("message", .obj [("content", .str "hello")])]])])) =
      .ok (some (builtRequest [("prompt", .str "hi")] ⟨some "sk", none, none⟩ "sk" "hi"),
        ⟨200, .obj [("text", .str "hello"),
                    ("model", .str (resolvedEnvModel ⟨some "sk", none, none⟩))]⟩) :=
  success_200 _ _ _ _ _ "hi" "sk" "hello" _ _ rfl (by decide) rfl (by decide) rfl rfl rfl
    (by decide) (Or.inr ⟨Or.inl rfl, rfl⟩)

/-- C1 counterexample: with body `{"prompt": "hi", "model": ""}` and the
`OPENAI_MODEL` variable set, a successful provider reply yields a 200 whose
`model` field is the environment value, not the `model` value `""` given in
the request body: `body.get('model') or ...` at app.py line 51 discards a
present but falsy value. -/
theorem model_resolution_counterexample :
    jlookup [("prompt", Json.str "hi"), ("model", Json.str "")] "model" =
      some (.str "") ∧
    api_llm (some (.obj [("prompt", .str "hi"), ("model", .str "")]))
        ⟨some "sk", none, some "env-model"⟩
        (.ok (.obj [("choices",
          .arr [.obj [("message", .obj [("content", .str "hello")])]])])) =
      .ok (some (builtRequest [("prompt", .str "hi"), ("model", .str "")]
            ⟨some "sk", none, some "env-model"⟩ "sk" "hi"),
        ⟨200, .obj [("text", .str "hello"), ("model", .str "env-model")]⟩) ∧
    Json.str "env-model" ≠ Json.str "" := by
  refine ⟨rfl, rfl, ?_⟩
  intro hh
  injection hh with hh2
  exact absurd hh2 (by decide)

/-- C4: on a 2xx provider reply with parseable JSON body `resp`, extraction
failure yields 502 with `"Could not extract text from provider response"`
and `raw` equal to the full parsed body; and every structural mismatch when
reading `choices[0].message.content` — the `choices` key missing, the
`choices` list empty, the `choices` value not a list, a non-dict first
element, a missing or non-dict `message`, a missing `content`, or a
non-object reply — is uniformly such an extraction failure. -/
theorem extraction_failure_502 (kvs : List (String × Json)) (env : Env)
    (p key : String) (resp : Json)
    (hp : jlookup kvs "prompt" = some (.str p)) (hps : pyStrip p ≠ "")
    (hk : env.OPENAI_API_KEY = some key) (hk0 : key ≠ "")
    (hfail : extractText resp = none) :
    api_llm (some (.obj kvs)) env (.ok resp) =
      .ok (some (builtRequest kvs env key p), ⟨502, .obj [
        ("error", .str "Could not extract text from provider response"),
        ("raw", resp)]⟩) ∧
    (∀ rkvs, jlookup rkvs "choices" = none → extractText (.obj rkvs) = none) ∧
    (∀ rkvs, jlookup rkvs "choices" = some (.arr []) → extractText (.obj rkvs) = none) ∧
    (∀ rkvs v, jlookup rkvs "choices" = some v → (∀ xs, v ≠ .arr xs) →
      extractText (.obj rkvs) = none) ∧
    (∀ rkvs c0 rest, jlookup rkvs "choices" = some (.arr (c0 :: rest)) →
      (∀ m, c0 ≠ .obj m) → extractText (.obj rkvs) = none) ∧
    (∀ rkvs c0m rest, jlookup rkvs "choices" = some (.arr (.obj c0m :: rest)) →
      (∀ v, jlookup c0m "message" = some v → ∀ m, v ≠ .obj m) →
      extractText (.obj rkvs) = none) ∧
    (∀ rkvs c0m mm rest, jlookup rkvs "choices" = some (.arr (.obj c0m :: rest)) →
      jlookup c0m "message" = some (.obj mm) → jlookup mm "content" = none →
      extractText (.obj rkvs) = none) ∧
    (∀ j, (∀ rkvs, j ≠ .obj rkvs) → extractText j = none) := by
  refine ⟨?_, ?_, ?_, ?_, ?_, ?_, ?_, ?_⟩
  · simp only [api_llm, builtRequest, resolvedModel, resolvedSystem, Option.getD, body_or_empty, hp, truthy_str_of_strip_ne p hps, if_true,
      if_neg hps, hk, if_neg hk0, hfail]
  · intro rkvs h
    simp [extractText, h]
  · intro rkvs h
    simp [extractText, h]
  · intro rkvs v h hv
    cases v with
    | arr xs => exact absurd rfl (hv xs)
    | null => simp [extractText, h]
    | bool b => simp [extractText, h]
    | num q => simp [extractText, h]
    | str s => simp [extractText, h]
    | obj o => simp [extractText, h]
  · intro rkvs c0 rest h hc0
    cases c0 with
    | obj m => exact absurd rfl (hc0 m)
    | null => simp [extractText, h]
    | bool b => simp [extractText, h]
    | num q => simp [extractText, h]
    | str s => simp [extractText, h]
    | arr xs => simp [extractText, h]
  · intro rkvs c0m rest h hmsg
    cases hv : jlookup c0m "message" with
    | none => simp [extractText, h, hv]
    | some v =>
      cases v with
      | obj m => exact absurd rfl (hmsg _ hv m)
      | null => simp [extractText, h, hv]
      | bool b => simp [extractText, h, hv]
      | num q => simp [extractText, h, hv]
      | str s => simp [extractText, h, hv]
      | arr xs => simp [extractText, h, hv]
  · intro rkvs c0m mm rest h hmsg hct
    simp [extractText, h, hmsg, hct]
  · intro j hj
    cases j with
    | obj o => exact absurd rfl (hj o)
    | null => rfl
    | bool b => rfl
    | num q => rfl
    | str s => rfl
    | arr xs => rfl

/-- C4 witness: provider replies 200 with `{"choices": []}` — the handler
responds 502 with the extraction-failure error and the parsed body as raw. -/
theorem extraction_failure_502_witness :
    api_llm (some (.obj [("prompt", .str "hi")])) ⟨some "sk", none, none⟩
        (.ok (.obj [("choices", .arr [])])) =
      .ok (some (builtRequest [("prompt", .str "hi")] ⟨some "sk", none, none⟩ "sk" "hi"),
        ⟨502, .obj [
          ("error", .str "Could not extract text from provider response"),
          ("raw", .obj [("choices", .arr [])])]⟩) ∧
    extractText (.obj [("choices", .arr [])]) = none :=
  ⟨(extraction_failure_502 [("prompt", .str "hi")] ⟨some "sk", none, none⟩ "hi" "sk"
      (.obj [("choices", .arr [])]) rfl (by decide) rfl (by decide) rfl).1, rfl⟩


/-- C3: with a valid prompt but `OPENAI_API_KEY` unset or empty, the handler
responds 400 with `"OPENAI_API_KEY is not set in the environment."` and no
outbound request is built; and in general every 400 response is produced
without the outbound call being attempted. -/
theorem missing_key_400_no_call (kvs : List (String × Json)) (env : Env)
    (call : Outcome) (p : String)
    (hp : jlookup kvs "prompt" = some (.str p)) (hps : pyStrip p ≠ "")
    (hk : env.OPENAI_API_KEY = none ∨ env.OPENAI_API_KEY = some "") :
    (api_llm (some (.obj kvs)) env call =
      .ok (none, ⟨400, .obj [("error", .str "OPENAI_API_KEY is not set in the environment.")]⟩)) ∧
    (∀ rawBody env2 call2 r resp, api_llm rawBody env2 call2 = .ok (r, resp) →
      resp.status = 400 → r = none) := by
  constructor
  · exact eval_key_missing env call kvs p hp hps hk
  · intro rawBody env2 call2 r resp h hst
    rcases api_llm_shape rawBody env2 call2 r resp h with ⟨hr, _⟩ | ⟨⟨q, hq⟩, h2 | h2 | h2⟩
    · exact hr
    · rw [hst] at h2
      exact absurd h2 (by decide)
    · rw [hst] at h2
      exact absurd h2 (by decide)
    · rw [hst] at h2
      exact absurd h2 (by decide)

/-- C3 witness: key unset, valid prompt, at a concrete input. -/
theorem missing_key_400_no_call_witness :
    api_llm (some (.obj [("prompt", .str "hi")])) ⟨none, none, none⟩ (.urlError "x") =
      .ok (none, ⟨400, .obj [("error", .str "OPENAI_API_KEY is not set in the environment.")]⟩) :=
  (missing_key_400_no_call [("prompt", .str "hi")] ⟨none, none, none⟩ (.urlError "x") "hi"
    rfl (by decide) (Or.inl rfl)).1

/-- C10: when the provider reply is 2xx and extraction finds a `content`
value that is present but falsy — the empty string, `null`, `0` or `false`
— the `if not text` check at app.py line 114 sends the 502
extraction-failure response with the raw body, not a 200. -/
theorem falsy_content_502 (kvs : List (String × Json)) (env : Env)
    (p key : String) (resp t : Json)
    (hp : jlookup kvs "prompt" = some (.str p)) (hps : pyStrip p ≠ "")
    (hk : env.OPENAI_API_KEY = some key) (hk0 : key ≠ "")
    (hext : extractText resp = some t) (ht : truthy t = false) :
    api_llm (some (.obj kvs)) env (.ok resp) =
      .ok (some (builtRequest kvs env key p), ⟨502, .obj [
        ("error", .str "Could not extract text from provider response"),
        ("raw", resp)]⟩) ∧
    truthy (.str "") = false ∧ truthy .null = false ∧
    truthy (.num 0) = false ∧ truthy (.bool false) = false := by
  refine ⟨?_, rfl, rfl, by decide, rfl⟩
  rw [eval_call_reached env kvs p key (.ok resp) hp hps hk hk0]
  simp [hext, ht]

/-- C10 witness: provider returns `content = ""` — 502, not 200. -/
theorem falsy_content_502_witness :
    api_llm (some (.obj [("prompt", .str "hi")])) ⟨some "sk", none, none⟩
        (.ok (.obj [("choices", .arr [.obj [("message", .obj [("content", .str "")])]])])) =
      .ok (some (builtRequest [("prompt", .str "hi")] ⟨some "sk", none, none⟩ "sk" "hi"),
        ⟨502, .obj [
          ("error", .str "Could not extract text from provider response"),
          ("raw", .obj [("choices", .arr [.obj [("message", .obj [("content", .str "")])]])])]⟩) :=
  (falsy_content_502 [("prompt", .str "hi")] ⟨some "sk", none, none⟩ "hi" "sk"
    (.obj [("choices", .arr [.obj [("message", .obj [("content", .str "")])]])]) (.str "")
    rfl (by decide) rfl (by decide) rfl rfl).1


/-- C7 counterexample: in the body `{"prompt": "hi", "system": ""}` the
`system` value is present (the empty string), yet `body.get('system') or
default` at app.py line 50 replaces it with the default — the payload does
not carry the present value verbatim. -/
theorem payload_verbatim_counterexample :
    jlookup [("prompt", Json.str "hi"), ("system", Json.str "")] "system" =
      some (.str "") ∧
    api_llm (some (.obj [("prompt", .str "hi"), ("system", .str "")]))
        ⟨some "sk", none, none⟩ (.urlError "x") =
      .ok (some (builtRequest [("prompt", .str "hi"), ("system", .str "")]
            ⟨some "sk", none, none⟩ "sk" "hi"),
        ⟨502, .obj [("error", .str "Failed to reach LLM provider"),
                    ("details", .str "x")]⟩) ∧
    (builtRequest [("prompt", .str "hi"), ("system", .str "")]
        ⟨some "sk", none, none⟩ "sk" "hi").payload =
      .obj [("model", .str "gpt-4o-mini"),
            ("messages", .arr [
              .obj [("role", .str "system"),
                    ("content", .str "You are a helpful assistant.")],
              .obj [("role", .str "user"), ("content", .str "hi")]]),
            ("temperature", .num (7 / 10)),
            ("max_tokens", .num 256)] ∧
    Json.str "You are a helpful assistant." ≠ Json.str "" := by
  refine ⟨rfl, rfl, rfl, ?_⟩
  intro hh
  injection hh with hh2
  exact absurd hh2 (by decide)

/-- C7 amended: for every request that reaches the outbound call, the
payload is `{model, messages: [system message, user message], temperature,
max_tokens}` where `temperature` and `max_tokens` are taken verbatim from
the request body whenever the key is present (no type coercion or range
validation; `null` included) and default to 0.7 and 256 only when the key
is absent, while `system` and `model` are taken verbatim only when present
and truthy, and fall back to `"You are a helpful assistant."` and to the
`OPENAI_MODEL` environment variable (else `"gpt-4o-mini"`) when absent or
falsy; the messages list is exactly the system message followed by the
user message carrying the stripped prompt. -/
theorem payload_fields (kvs : List (String × Json)) (env : Env)
    (call : Outcome) (p key : String)
    (hp : jlookup kvs "prompt" = some (.str p)) (hps : pyStrip p ≠ "")
    (hk : env.OPENAI_API_KEY = some key) (hk0 : key ≠ "") :
    ∃ resp, api_llm (some (.obj kvs)) env call =
      .ok (some (builtRequest kvs env key p), resp) ∧
    ∃ m sy t mt, (builtRequest kvs env key p).payload =
      .obj [("model", m),
            ("messages", .arr [
              .obj [("role", .str "system"), ("content", sy)],
              .obj [("role", .str "user"), ("content", .str (pyStrip p))]]),
            ("temperature", t), ("max_tokens", mt)] ∧
      (∀ v, jlookup kvs "temperature" = some v → t = v) ∧
      (jlookup kvs "temperature" = none → t = .num (7 / 10)) ∧
      (∀ v, jlookup kvs "max_tokens" = some v → mt = v) ∧
      (jlookup kvs "max_tokens" = none → mt = .num 256) ∧
      (∀ v, jlookup kvs "model" = some v → truthy v = true → m = v) ∧
      ((jlookup kvs "model" = none ∨
        ∃ v, jlookup kvs "model" = some v ∧ truthy v = false) →
        m = .str (resolvedEnvModel env)) ∧
      (∀ v, jlookup kvs "system" = some v → truthy v = true → sy = v) ∧
      ((jlookup kvs "system" = none ∨
        ∃ v, jlookup kvs "system" = some v ∧ truthy v = false) →
        sy = .str "You are a helpful assistant.") := by
  refine ⟨_, eval_call_reached env kvs p key call hp hps hk hk0, ?_⟩
  refine ⟨resolvedModel kvs env, resolvedSystem kvs,
    (jlookup kvs "temperature").getD (.num (7 / 10)),
    (jlookup kvs "max_tokens").getD (.num 256), rfl, ?_, ?_, ?_, ?_, ?_, ?_, ?_, ?_⟩
  · intro v hv
    rw [hv]
    rfl
  · intro hn
    rw [hn]
    rfl
  · intro v hv
    rw [hv]
    rfl
  · intro hn
    rw [hn]
    rfl
  · intro v hv htv
    simp [resolvedModel, hv, htv]
  · rintro (hn | ⟨v, hv, htv⟩)
    · simp [resolvedModel, hn]
    · simp [resolvedModel, hv, htv]
  · intro v hv htv
    simp [resolvedSystem, hv, htv]
  · rintro (hn | ⟨v, hv, htv⟩)
    · simp [resolvedSystem, hn]
    · simp [resolvedSystem, hv, htv]

/-- C7 amended witness: `temperature` present as `null` is forwarded
verbatim, a falsy `model` falls back to the environment default. -/
theorem payload_fields_witness :
    ∃ resp, api_llm (some (.obj [("prompt", .str "hi"), ("temperature", .null),
        ("model", .str "")])) ⟨some "sk", none, some "env-model"⟩ (.urlError "x") =
      .ok (some (builtRequest [("prompt", .str "hi"), ("temperature", .null),
          ("model", .str "")] ⟨some "sk", none, some "env-model"⟩ "sk" "hi"), resp) ∧
    ∃ m sy t mt, (builtRequest [("prompt", .str "hi"), ("temperature", .null),
        ("model", .str "")] ⟨some "sk", none, some "env-model"⟩ "sk" "hi").payload =
      .obj [("model", m),
            ("messages", .arr [
              .obj [("role", .str "system"), ("content", sy)],
              .obj [("role", .str "user"), ("content", .str (pyStrip "hi"))]]),
            ("temperature", t), ("max_tokens", mt)] ∧
      (∀ v, jlookup [("prompt", Json.str "hi"), ("temperature", Json.null),
        ("model", Json.str "")] "temperature" = some v → t = v) ∧
      (jlookup [("prompt", Json.str "hi"), ("temperature", Json.null),
        ("model", Json.str "")] "temperature" = none → t = .num (7 / 10)) ∧
      (∀ v, jlookup [("prompt", Json.str "hi"), ("temperature", Json.null),
        ("model", Json.str "")] "max_tokens" = some v → mt = v) ∧
      (jlookup [("prompt", Json.str "hi"), ("temperature", Json.null),
        ("model", Json.str "")] "max_tokens" = none → mt = .num 256) ∧
      (∀ v, jlookup [("prompt", Json.str "hi"), ("temperature", Json.null),
        ("model", Json.str "")] "model" = some v → truthy v = true → m = v) ∧
      ((jlookup [("prompt", Json.str "hi"), ("temperature", Json.null),
        ("model", Json.str "")] "model" = none ∨
        ∃ v, jlookup [("prompt", Json.str "hi"), ("temperature", Json.null),
          ("model", Json.str "")] "model" = some v ∧ truthy v = false) →
        m = .str (resolvedEnvModel ⟨some "sk", none, some "env-model"⟩)) ∧
      (∀ v, jlookup [("prompt", Json.str "hi"), ("temperature", Json.null),
        ("model", Json.str "")] "system" = some v → truthy v = true → sy = v) ∧
      ((jlookup [("prompt", Json.str "hi"), ("temperature", Json.null),
        ("model", Json.str "")] "system" = none ∨
        ∃ v, jlookup [("prompt", Json.str "hi"), ("temperature", Json.null),
          ("model", Json.str "")] "system" = some v ∧ truthy v = false) →
        sy = .str "You are a helpful assistant.") :=
  payload_fields [("prompt", .str "hi"), ("temperature", .null), ("model", .str "")]
    ⟨some "sk", none, some "env-model"⟩ (.urlError "x") "hi" "sk"
    rfl (by decide) rfl (by decide)


/-- C8: for every request that reaches the outbound call, the request URL is
the `OPENAI_BASE_URL` value (default `"https://api.openai.com/v1"` when
unset) with all trailing slashes stripped, followed by
`"/chat/completions"`. -/
theorem endpoint_url (kvs : List (String × Json)) (env : Env) (call : Outcome)
    (p key : String)
    (hp : jlookup kvs "prompt" = some (.str p)) (hps : pyStrip p ≠ "")
    (hk : env.OPENAI_API_KEY = some key) (hk0 : key ≠ "") :
    (∃ resp, api_llm (some (.obj kvs)) env call =
      .ok (some (builtRequest kvs env key p), resp)) ∧
    (∀ u, env.OPENAI_BASE_URL = some u →
      (builtRequest kvs env key p).url = rstripSlash u ++ "/chat/completions") ∧
    (env.OPENAI_BASE_URL = none →
      (builtRequest kvs env key p).url =
        rstripSlash "https://api.openai.com/v1" ++ "/chat/completions") := by
  refine ⟨⟨_, eval_call_reached env kvs p key call hp hps hk hk0⟩, ?_, ?_⟩
  · intro u hu
    simp [builtRequest, resolvedBaseUrl, hu]
  · intro hn
    simp [builtRequest, resolvedBaseUrl, hn]

/-- C8 witness: `OPENAI_BASE_URL = "https://x/v1/"` produces requests to
`https://x/v1/chat/completions`, with no double slash. -/
theorem endpoint_url_witness :
    (builtRequest [("prompt", .str "hi")] ⟨some "sk", some "https://x/v1/", none⟩
      "sk" "hi").url = "https://x/v1/chat/completions" := by
  have h := (endpoint_url [("prompt", .str "hi")]
    ⟨some "sk", some "https://x/v1/", none⟩ (.urlError "x") "hi" "sk"
    rfl (by decide) rfl (by decide)).2.1 "https://x/v1/" rfl
  rw [h]
  rfl

/-- C9 counterexample: the JSON bodies `1` (truthy, not an object) and
`{"prompt": 5}` (truthy non-string prompt) make the handler raise an
uncaught AttributeError — at `body.get` and `.strip()` respectively — so
the request crashes outside the documented 400/500/502 JSON outcomes. -/
theorem no_unhandled_exception_counterexample :
    api_llm (some (.num 1)) ⟨some "sk", none, none⟩ (.urlError "x") =
      .error "AttributeError: object has no attribute get" ∧
    api_llm (some (.obj [("prompt", .num 5)])) ⟨some "sk", none, none⟩ (.urlError "x") =
      .error "AttributeError: object has no attribute strip" := ⟨rfl, rfl⟩

/-- C9 amended: for every request whose JSON body is absent, unparseable, a
falsy value, or an object whose `prompt` — when present and truthy — is a
string, the handler raises no exception and returns one of the documented
JSON responses, with status 200, 400, 500 or 502; the uncovered bodies
(truthy non-objects, truthy non-string prompts) instead raise
AttributeError. -/
theorem no_unhandled_exception_on_wellformed (rawBody : Option Json)
    (env : Env) (call : Outcome)
    (hsafe : rawBody = none ∨ ∃ j, rawBody = some j ∧
      (truthy j = false ∨ ∃ kvs, j = .obj kvs ∧
        (jlookup kvs "prompt" = none ∨ ∃ pv, jlookup kvs "prompt" = some pv ∧
          (truthy pv = false ∨ ∃ s, pv = .str s)))) :
    ∃ r resp, api_llm rawBody env call = .ok (r, resp) ∧
      (resp.status = 200 ∨ resp.status = 400 ∨ resp.status = 500 ∨
        resp.status = 502) := by
  rcases hsafe with rfl | ⟨j, rfl, hfalsy | ⟨kvs, rfl, hpm⟩⟩
  · exact ⟨_, _, eval_body_none env call, by simp⟩
  · exact ⟨_, _, eval_body_falsy env call j hfalsy, by simp⟩
  · rcases hpm with hpn | ⟨pv, hp, hpf | ⟨s, rfl⟩⟩
    · exact ⟨_, _, eval_prompt_absent env call kvs hpn, by simp⟩
    · exact ⟨_, _, eval_prompt_falsy env call kvs pv hp hpf, by simp⟩
    · by_cases hps : pyStrip s = ""
      · exact ⟨_, _, eval_prompt_blank env call kvs s hp hps, by simp⟩
      · cases hk : env.OPENAI_API_KEY with
        | none =>
          exact ⟨_, _, eval_key_missing env call kvs s hp hps (Or.inl hk), by simp⟩
        | some key =>
          by_cases hk0 : key = ""
          · subst hk0
            exact ⟨_, _, eval_key_missing env call kvs s hp hps (Or.inr hk), by simp⟩
          · refine ⟨_, _, eval_call_reached env kvs s key call hp hps hk hk0, ?_⟩
            cases call with
            | httpError c rb sE => simp
            | urlError sE => simp
            | otherError sE => simp
            | ok rj =>
              cases hext : extractText rj with
              | none => simp [hext]
              | some t =>
                cases htt : truthy t with
                | true => simp [hext, htt]
                | false => simp [hext, htt]

/-- C9 amended witness: a concrete well-formed body runs to a documented
response. -/
theorem no_unhandled_exception_on_wellformed_witness :
    ∃ r resp, api_llm (some (.obj [("prompt", .str "hi")])) ⟨some "sk", none, none⟩
        (.otherError "boom") = .ok (r, resp) ∧
      (resp.status = 200 ∨ resp.status = 400 ∨ resp.status = 500 ∨
        resp.status = 502) :=
  no_unhandled_exception_on_wellformed _ _ _
    (Or.inr ⟨_, rfl, Or.inr ⟨_, rfl, Or.inr ⟨_, rfl, Or.inr ⟨"hi", rfl⟩⟩⟩⟩)

end FlaskApp
